import Mathlib

/-!
Shallow embedding of the sloth Prometheus YAML spec loader
(internal/prometheus/spec.go) and proofs about it.

The loader parses a YAML document describing SLOs, validates it, resolves
each SLO signal source (events, raw, or plugin) and produces a domain model.
Label maps are modelled as association lists, the objective (a Go float64)
as a rational number, and Go (value, error) returns as an explicit pair of
options at the top level and as Except in straight-line helper code where
every Go return statement is either (value, nil) or (nil, error).
-/

namespace Sloth

/-- Label maps (Go map of string to string) modelled as association lists. -/
abbrev LabelMap := List (String × String)

/-- Modelled from the spec: the helper mergeLabels called by mapSpecToModel is
not part of the shown source slice; per the spec, the first map is overlaid by
the second, which wins on key collision, keys unique to either side kept. -/
def mergeLabels (m1 m2 : LabelMap) : LabelMap :=
  (m1.filter fun kv => (m2.lookup kv.1).isNone) ++ m2

/-- Modelled from the spec: Go formats the objective (fmt.Sprintf with the f
verb) with fixed six digits after the decimal point, so objective 99 renders
as "99.000000". The objective is modelled as a rational number. -/
def formatObjective (o : ℚ) : String :=
  let scaled : Int := (o * 1000000).floor
  let whole : Int := scaled / 1000000
  let frac : Nat := (scaled % 1000000).toNat
  let fracStr := toString frac
  let pad := String.mk (List.replicate (6 - fracStr.length) '0')
  toString whole ++ "." ++ pad ++ fracStr

/-- Input shape of sli.events (pkg prometheusv1). -/
structure SLIEventsSpec where
  ErrorQuery : String := ""
  TotalQuery : String := ""
deriving DecidableEq, Repr

/-- Input shape of sli.raw (pkg prometheusv1). -/
structure SLIRawSpec where
  ErrorRatioQuery : String := ""
deriving DecidableEq, Repr

/-- Input shape of sli.plugin (pkg prometheusv1): an identifier plus options. -/
structure SLIPluginSpec where
  ID : String := ""
  Options : LabelMap := []
deriving DecidableEq, Repr

/-- Input signal-source union: in the Go struct all three fields are pointers,
any subset of which YAML parsing may leave non-nil. -/
structure SLISpec where
  Events : Option SLIEventsSpec := none
  Raw : Option SLIRawSpec := none
  Plugin : Option SLIPluginSpec := none
deriving DecidableEq, Repr

/-- Input shape of one of alerting.page_alert / alerting.ticket_alert.
An absent block parses to the Go zero value, in particular Disable = false. -/
structure AlertSpec where
  Disable : Bool := false
  Labels : LabelMap := []
  Annotations : LabelMap := []
deriving DecidableEq, Repr

/-- Input shape of the alerting block. An absent block parses to the zero
value: empty name, empty maps, both sub-alerts at their zero value. -/
structure AlertingSpec where
  Name : String := ""
  Labels : LabelMap := []
  Annotations : LabelMap := []
  PageAlert : AlertSpec := {}
  TicketAlert : AlertSpec := {}
deriving DecidableEq, Repr

/-- One SLO declaration of the input document. -/
structure SLOSpec where
  Name : String := ""
  Description : String := ""
  Objective : ℚ := 0
  Labels : LabelMap := []
  SLI : SLISpec := {}
  Alerting : AlertingSpec := {}
deriving DecidableEq, Repr

/-- The versioned input document (pkg prometheusv1 Spec). -/
structure Spec where
  Version : String := ""
  Service : String := ""
  Labels : LabelMap := []
  SLOs : List SLOSpec := []
deriving DecidableEq, Repr

/-- The single supported version literal (pkg prometheusv1 Version). -/
def specVersion : String := "prometheus/v1"

/-- One hour, in nanoseconds (Go time.Hour). -/
def hour : Nat := 3600 * 1000000000

/-- Output events indicator. -/
structure SLIEvents where
  ErrorQuery : String := ""
  TotalQuery : String := ""
deriving DecidableEq, Repr

/-- Output raw indicator. -/
structure SLIRaw where
  ErrorRatioQuery : String := ""
deriving DecidableEq, Repr

/-- Resolved indicator of the output model: a pair of optional shapes. -/
structure SLI where
  Events : Option SLIEvents := none
  Raw : Option SLIRaw := none
deriving DecidableEq, Repr

/-- Output alert metadata for one of the page / ticket alerts. -/
structure AlertMeta where
  Disable : Bool := false
  Name : String := ""
  Labels : LabelMap := []
  Annotations : LabelMap := []
deriving DecidableEq, Repr

/-- Output SLO entity. TimeWindow is in nanoseconds (Go time.Duration). -/
structure SLO where
  ID : String := ""
  Name : String := ""
  Description : String := ""
  Service : String := ""
  TimeWindow : Nat := 0
  Objective : ℚ := 0
  Labels : LabelMap := []
  SLI : Sloth.SLI := {}
  PageAlertMeta : AlertMeta := {}
  TicketAlertMeta : AlertMeta := {}
deriving DecidableEq, Repr

/-- Output group: the ordered sequence of resolved SLOs. -/
structure SLOGroup where
  SLOs : List SLO := []
deriving DecidableEq, Repr

/-- Error taxonomy of LoadSpec. In Go these are fmt.Errorf values; LoadSpec
wraps the mapping-stage errors with a message prefix, preserving the cause. -/
inductive LoadError where
  | EmptySpec
  | MalformedSpec
  | UnsupportedVersion
  | NoSLOs
  | UnknownPlugin (id : String)
  | PluginExecutionError (id : String) (cause : String)
deriving DecidableEq, Repr

/-- A registered SLI plugin: an identifier and a function taking the metadata
mapping, the group labels and the options (the Go function also takes a
cancellation context, irrelevant to the functional behaviour modelled here)
and returning a query string or an error. -/
structure SLIPlugin where
  ID : String := ""
  Func : List (String × String) → LabelMap → LabelMap → Except String String

/-- The plugin registry (Go map[string]SLIPlugin), as an association list. -/
abbrev Plugins := List (String × SLIPlugin)

/-- The raw input of LoadSpec: the byte length of the data together with the
outcome of yaml.Unmarshal on it (none when the external YAML library reports
a parse error, some s when it fills the Spec structure s). -/
structure RawInput where
  len : Nat
  parse : Option Spec

/-- Base SLO built at the top of the loop body of mapSpecToModel: identity,
window, merged labels, and both alert metas defaulted to disabled. -/
def initSLO (s : Spec) (d : SLOSpec) : SLO :=
  { ID := s.Service ++ "-" ++ d.Name
    Name := d.Name
    Description := d.Description
    Service := s.Service
    TimeWindow := 30 * 24 * hour
    Objective := d.Objective
    Labels := mergeLabels s.Labels d.Labels
    SLI := {}
    PageAlertMeta := { Disable := true }
    TicketAlertMeta := { Disable := true } }

/-- The first SLI branch of the loop body: when the events variant is
non-nil, copy both queries. -/
def setSLIEvents (d : SLOSpec) (slo : SLO) : SLO :=
  match d.SLI.Events with
  | none => slo
  | some e =>
      { slo with SLI := { slo.SLI with
          Events := some { ErrorQuery := e.ErrorQuery, TotalQuery := e.TotalQuery } } }

/-- The second SLI branch of the loop body: when the raw variant is non-nil,
copy the ratio query. -/
def setSLIRaw (d : SLOSpec) (slo : SLO) : SLO :=
  match d.SLI.Raw with
  | none => slo
  | some r =>
      { slo with SLI := { slo.SLI with
          Raw := some { ErrorRatioQuery := r.ErrorRatioQuery } } }

/-- The metadata mapping passed to a plugin: service, SLO name, and the
objective formatted with six digits after the decimal point. -/
def pluginMeta (s : Spec) (d : SLOSpec) : List (String × String) :=
  [("service", s.Service), ("slo", d.Name), ("objective", formatObjective d.Objective)]

/-- The page-alert step of the loop body: when the page alert is not
disabled, replace the default meta by the merged enabled one. -/
def setPageAlert (d : SLOSpec) (slo : SLO) : SLO :=
  if d.Alerting.PageAlert.Disable then slo
  else
    { slo with PageAlertMeta :=
        { Disable := false
          Name := d.Alerting.Name
          Labels := mergeLabels d.Alerting.Labels d.Alerting.PageAlert.Labels
          Annotations := mergeLabels d.Alerting.Annotations d.Alerting.PageAlert.Annotations } }

/-- The ticket-alert step of the loop body, symmetric to the page one. -/
def setTicketAlert (d : SLOSpec) (slo : SLO) : SLO :=
  if d.Alerting.TicketAlert.Disable then slo
  else
    { slo with TicketAlertMeta :=
        { Disable := false
          Name := d.Alerting.Name
          Labels := mergeLabels d.Alerting.Labels d.Alerting.TicketAlert.Labels
          Annotations := mergeLabels d.Alerting.Annotations d.Alerting.TicketAlert.Annotations } }

/-- Both alert steps, run at the end of the loop body. -/
def setAlerts (d : SLOSpec) (slo : SLO) : SLO :=
  setTicketAlert d (setPageAlert d slo)

/-- The body of the per-SLO loop of mapSpecToModel: builds the base SLO, runs
the three independent SLI branches in order (events, raw, plugin), then the
alert steps. Every Go early return carries a nil model and an error, so the
body is modelled as an Except value. -/
def mapSLO (plugins : Plugins) (s : Spec) (d : SLOSpec) : Except LoadError SLO :=
  let slo := setSLIRaw d (setSLIEvents d (initSLO s d))
  match d.SLI.Plugin with
  | none => .ok (setAlerts d slo)
  | some p =>
      match plugins.lookup p.ID with
      | none => .error (.UnknownPlugin p.ID)
      | some plugin =>
          match plugin.Func (pluginMeta s d) s.Labels p.Options with
          | .error e => .error (.PluginExecutionError p.ID e)
          | .ok rawQuery =>
              .ok (setAlerts d { slo with SLI := { slo.SLI with
                    Raw := some { ErrorRatioQuery := rawQuery } } })

/-- The loop of mapSpecToModel: appends the resolved SLOs in input order,
returning the first error immediately. -/
def mapSLOs (plugins : Plugins) (s : Spec) : List SLOSpec → Except LoadError (List SLO)
  | [] => .ok []
  | d :: rest =>
      match mapSLO plugins s d with
      | .error e => .error e
      | .ok slo =>
          match mapSLOs plugins s rest with
          | .error e => .error e
          | .ok slos => .ok (slo :: slos)

/-- mapSpecToModel: runs the loop and wraps the result in a group. In Go it
returns a (pointer, error) pair whose components are never both non-nil. -/
def mapSpecToModel (plugins : Plugins) (s : Spec) : Option SLOGroup × Option LoadError :=
  match mapSLOs plugins s s.SLOs with
  | .error e => (none, some e)
  | .ok models => (some { SLOs := models }, none)

/-- LoadSpec: the four validation gates in order, then the mapping stage.
Each Go return statement is translated to the corresponding pair of a model
pointer and an error. -/
def LoadSpec (plugins : Plugins) (input : RawInput) : Option SLOGroup × Option LoadError :=
  if input.len = 0 then (none, some .EmptySpec)
  else
    match input.parse with
    | none => (none, some .MalformedSpec)
    | some s =>
        if s.Version ≠ specVersion then (none, some .UnsupportedVersion)
        else if s.SLOs.length = 0 then (none, some .NoSLOs)
        else
          match mapSpecToModel plugins s with
          | (_, some e) => (none, some e)
          | (m, none) => (m, none)

/-- The SLI pipeline prefix of the loop body, before the plugin branch. -/
def preSLO (s : Spec) (d : SLOSpec) : SLO :=
  setSLIRaw d (setSLIEvents d (initSLO s d))

/-- True when exactly one of the three signal-source variants is set. -/
def oneVariant (sli : SLISpec) : Bool :=
  match sli.Events, sli.Raw, sli.Plugin with
  | some _, none, none => true
  | none, some _, none => true
  | none, none, some _ => true
  | _, _, _ => false

/-! ## Concrete fixtures, mirroring the repository test inputs -/

/-- Zero-length input. -/
def emptyInput : RawInput := ⟨0, none⟩

/-- The one-byte input consisting of the colon character: the external YAML
library reports a syntax error on it, as the repository test asserts. -/
def colonInput : RawInput := ⟨1, none⟩

/-- Alerting block with both alerts explicitly disabled. -/
def disabledAlerting : AlertingSpec :=
  { PageAlert := { Disable := true }, TicketAlert := { Disable := true } }

/-- Parse result of a document with an unsupported version. -/
def specBadVersion : Spec :=
  { Version := "prometheus/v2", Service := "test-svc", SLOs := [{ Name := "something" }] }

def inputBadVersion : RawInput := ⟨64, some specBadVersion⟩

/-- Parse result of a document with an empty SLO list. -/
def specNoSLOs : Spec :=
  { Version := "prometheus/v1", Service := "test-svc", SLOs := [] }

def inputNoSLOs : RawInput := ⟨64, some specNoSLOs⟩

/-- An SLO declaration using the raw variant, from the repository test. -/
def sloRawDecl : SLOSpec :=
  { Name := "slo2", Objective := 999/10
    SLI := { Raw := some { ErrorRatioQuery := "test_expr_ratio_2" } }
    Alerting := disabledAlerting }

def specA : Spec :=
  { Version := "prometheus/v1", Service := "test-svc"
    Labels := [("owner", "myteam")], SLOs := [sloRawDecl] }

def inputA : RawInput := ⟨64, some specA⟩

/-- The SLO the loader produces for sloRawDecl inside specA. -/
def sloA : SLO :=
  { ID := "test-svc-slo2", Name := "slo2", Service := "test-svc"
    TimeWindow := 2592000000000000, Objective := 999/10
    Labels := [("owner", "myteam")]
    SLI := { Raw := some { ErrorRatioQuery := "test_expr_ratio_2" } }
    PageAlertMeta := { Disable := true }, TicketAlertMeta := { Disable := true } }

def groupA : SLOGroup := { SLOs := [sloA] }

/-- An SLO declaration with both the events and the raw variants set. -/
def declBoth : SLOSpec :=
  { Name := "b", Objective := 99
    SLI := { Events := some { ErrorQuery := "e", TotalQuery := "t" }
             Raw := some { ErrorRatioQuery := "r" } }
    Alerting := disabledAlerting }

def specBoth : Spec :=
  { Version := "prometheus/v1", Service := "svc", SLOs := [declBoth] }

def inputBoth : RawInput := ⟨64, some specBoth⟩

/-- The SLO the loader produces for declBoth: both indicators populated. -/
def sloBoth : SLO :=
  { ID := "svc-b", Name := "b", Service := "svc"
    TimeWindow := 2592000000000000, Objective := 99
    SLI := { Events := some { ErrorQuery := "e", TotalQuery := "t" }
             Raw := some { ErrorRatioQuery := "r" } }
    PageAlertMeta := { Disable := true }, TicketAlertMeta := { Disable := true } }

/-- An SLO declaration whose alerting block is entirely absent: YAML leaves
the whole block at its zero value. -/
def declNoAlert : SLOSpec :=
  { Name := "a", Objective := 99, SLI := { Raw := some { ErrorRatioQuery := "q" } } }

def specNoAlert : Spec :=
  { Version := "prometheus/v1", Service := "svc", SLOs := [declNoAlert] }

def inputNoAlert : RawInput := ⟨32, some specNoAlert⟩

/-- The SLO the loader produces for declNoAlert: both alerts enabled with
empty name and merged-empty maps. -/
def sloNoAlert : SLO :=
  { ID := "svc-a", Name := "a", Service := "svc"
    TimeWindow := 2592000000000000, Objective := 99
    SLI := { Raw := some { ErrorRatioQuery := "q" } }
    PageAlertMeta := { Disable := false }, TicketAlertMeta := { Disable := false } }

def groupNoAlert : SLOGroup := { SLOs := [sloNoAlert] }

/-- A deterministic test plugin composing its inputs, like the repository
test plugin does. -/
def tPlugin : SLIPlugin :=
  { ID := "test_plugin"
    Func := fun meta labels options =>
      .ok ("expr-" ++ ((meta.lookup "service").getD "") ++ "-"
        ++ ((meta.lookup "slo").getD "") ++ "-"
        ++ ((meta.lookup "objective").getD "") ++ "-"
        ++ ((labels.lookup "gk1").getD "") ++ "-"
        ++ ((options.lookup "k1").getD "") ++ "-"
        ++ ((options.lookup "k2").getD "")) }

/-- The plugin declaration of the repository test fixture. -/
def declP : SLOSpec :=
  { Name := "slo-test", Objective := 99
    SLI := { Plugin := some { ID := "test_plugin"
                              Options := [("k1", "v1"), ("k2", "true")] } }
    Alerting := disabledAlerting }

def specP : Spec :=
  { Version := "prometheus/v1", Service := "test-svc"
    Labels := [("gk1", "gv1")], SLOs := [declP] }

def inputP : RawInput := ⟨64, some specP⟩

/-- A declaration referencing a plugin id registered in no registry. -/
def declUnknown : SLOSpec :=
  { Name := "slo", Objective := 99
    SLI := { Plugin := some { ID := "unknown_plugin" } }
    Alerting := disabledAlerting }

def specUnknown : Spec :=
  { Version := "prometheus/v1", Service := "test-svc", SLOs := [declUnknown] }

def inputUnknown : RawInput := ⟨64, some specUnknown⟩

/-- A declaration with none of the three signal-source variants set. -/
def declEmptySLI : SLOSpec :=
  { Name := "bare", Objective := 99, Alerting := disabledAlerting }

def specEmptySLI : Spec :=
  { Version := "prometheus/v1", Service := "svc", SLOs := [declEmptySLI] }

def inputEmptySLI : RawInput := ⟨32, some specEmptySLI⟩

/-- Parse result of an otherwise valid document with no service key. -/
def specNoService : Spec :=
  { Version := "prometheus/v1", Service := "", SLOs := [sloRawDecl] }

def inputNoService : RawInput := ⟨32, some specNoService⟩

/-! ## Helper lemmas about the per-SLO pipeline -/

theorem setPageAlert_SLI (d : SLOSpec) (slo : SLO) :
    (setPageAlert d slo).SLI = slo.SLI := by
  unfold setPageAlert; split <;> rfl

theorem setTicketAlert_SLI (d : SLOSpec) (slo : SLO) :
    (setTicketAlert d slo).SLI = slo.SLI := by
  unfold setTicketAlert; split <;> rfl

theorem setAlerts_SLI (d : SLOSpec) (slo : SLO) :
    (setAlerts d slo).SLI = slo.SLI := by
  unfold setAlerts; rw [setTicketAlert_SLI, setPageAlert_SLI]

theorem setAlerts_ID (d : SLOSpec) (slo : SLO) :
    (setAlerts d slo).ID = slo.ID := by
  unfold setAlerts setTicketAlert setPageAlert; split <;> split <;> rfl

theorem setAlerts_Name (d : SLOSpec) (slo : SLO) :
    (setAlerts d slo).Name = slo.Name := by
  unfold setAlerts setTicketAlert setPageAlert; split <;> split <;> rfl

theorem setAlerts_Service (d : SLOSpec) (slo : SLO) :
    (setAlerts d slo).Service = slo.Service := by
  unfold setAlerts setTicketAlert setPageAlert; split <;> split <;> rfl

theorem preSLO_Events (s : Spec) (d : SLOSpec) :
    (preSLO s d).SLI.Events
      = d.SLI.Events.map fun e => { ErrorQuery := e.ErrorQuery, TotalQuery := e.TotalQuery } := by
  unfold preSLO setSLIRaw setSLIEvents
  cases hE : d.SLI.Events <;> cases hR : d.SLI.Raw <;> simp [hE, hR, initSLO]

theorem preSLO_Raw (s : Spec) (d : SLOSpec) :
    (preSLO s d).SLI.Raw
      = d.SLI.Raw.map fun r => { ErrorRatioQuery := r.ErrorRatioQuery } := by
  unfold preSLO setSLIRaw setSLIEvents
  cases hE : d.SLI.Events <;> cases hR : d.SLI.Raw <;> simp [hE, hR, initSLO]

theorem preSLO_ID (s : Spec) (d : SLOSpec) :
    (preSLO s d).ID = s.Service ++ "-" ++ d.Name := by
  unfold preSLO setSLIRaw setSLIEvents
  cases hE : d.SLI.Events <;> cases hR : d.SLI.Raw <;> simp [hE, hR, initSLO]

theorem preSLO_Name (s : Spec) (d : SLOSpec) :
    (preSLO s d).Name = d.Name := by
  unfold preSLO setSLIRaw setSLIEvents
  cases hE : d.SLI.Events <;> cases hR : d.SLI.Raw <;> simp [hE, hR, initSLO]

theorem preSLO_Service (s : Spec) (d : SLOSpec) :
    (preSLO s d).Service = s.Service := by
  unfold preSLO setSLIRaw setSLIEvents
  cases hE : d.SLI.Events <;> cases hR : d.SLI.Raw <;> simp [hE, hR, initSLO]

/-- Unfolding of mapSLO when the plugin variant is absent. -/
theorem mapSLO_plugin_none {plugins : Plugins} {s : Spec} {d : SLOSpec}
    (h : d.SLI.Plugin = none) :
    mapSLO plugins s d = .ok (setAlerts d (preSLO s d)) := by
  unfold mapSLO preSLO; rw [h]

/-- Unfolding of mapSLO when the plugin variant names an unregistered id. -/
theorem mapSLO_plugin_unknown {plugins : Plugins} {s : Spec} {d : SLOSpec}
    {p : SLIPluginSpec} (h : d.SLI.Plugin = some p)
    (h2 : plugins.lookup p.ID = none) :
    mapSLO plugins s d = .error (.UnknownPlugin p.ID) := by
  unfold mapSLO; rw [h]; simp [h2]

/-- Unfolding of mapSLO when the registered plugin returns an error. -/
theorem mapSLO_plugin_error {plugins : Plugins} {s : Spec} {d : SLOSpec}
    {p : SLIPluginSpec} {pl : SLIPlugin} {e : String}
    (h : d.SLI.Plugin = some p) (h2 : plugins.lookup p.ID = some pl)
    (h3 : pl.Func (pluginMeta s d) s.Labels p.Options = .error e) :
    mapSLO plugins s d = .error (.PluginExecutionError p.ID e) := by
  unfold mapSLO; rw [h]; simp [h2, h3]

/-- Unfolding of mapSLO when the registered plugin returns a query. -/
theorem mapSLO_plugin_ok {plugins : Plugins} {s : Spec} {d : SLOSpec}
    {p : SLIPluginSpec} {pl : SLIPlugin} {q : String}
    (h : d.SLI.Plugin = some p) (h2 : plugins.lookup p.ID = some pl)
    (h3 : pl.Func (pluginMeta s d) s.Labels p.Options = .ok q) :
    mapSLO plugins s d
      = .ok (setAlerts d { preSLO s d with SLI := { (preSLO s d).SLI with
            Raw := some { ErrorRatioQuery := q } } }) := by
  unfold mapSLO preSLO; rw [h]; simp [h2, h3]

/-- Inversion of a successful mapSLO into its two success shapes. -/
theorem mapSLO_ok_inv {plugins : Plugins} {s : Spec} {d : SLOSpec} {m : SLO}
    (h : mapSLO plugins s d = .ok m) :
    (d.SLI.Plugin = none ∧ m = setAlerts d (preSLO s d)) ∨
    (∃ p pl q, d.SLI.Plugin = some p ∧ plugins.lookup p.ID = some pl ∧
      pl.Func (pluginMeta s d) s.Labels p.Options = .ok q ∧
      m = setAlerts d { preSLO s d with SLI := { (preSLO s d).SLI with
            Raw := some { ErrorRatioQuery := q } } }) := by
  cases hP : d.SLI.Plugin with
  | none =>
      rw [mapSLO_plugin_none hP] at h
      injection h with h'
      exact Or.inl ⟨rfl, h'.symm⟩
  | some p =>
      cases hL : plugins.lookup p.ID with
      | none => rw [mapSLO_plugin_unknown hP hL] at h; cases h
      | some pl =>
          cases hF : pl.Func (pluginMeta s d) s.Labels p.Options with
          | error e => rw [mapSLO_plugin_error hP hL hF] at h; cases h
          | ok q =>
              rw [mapSLO_plugin_ok hP hL hF] at h
              injection h with h'
              exact Or.inr ⟨p, pl, q, rfl, hL, hF, h'.symm⟩

/-- Every field facts of a successful mapSLO that do not depend on the SLI
branch taken: identity, name and service. -/
theorem mapSLO_ok_fields {plugins : Plugins} {s : Spec} {d : SLOSpec} {m : SLO}
    (h : mapSLO plugins s d = .ok m) :
    m.ID = s.Service ++ "-" ++ d.Name ∧ m.Name = d.Name ∧ m.Service = s.Service := by
  rcases mapSLO_ok_inv h with ⟨_, rfl⟩ | ⟨p, pl, q, _, _, _, rfl⟩
  · rw [setAlerts_ID, setAlerts_Name, setAlerts_Service, preSLO_ID, preSLO_Name, preSLO_Service]
    exact ⟨rfl, rfl, rfl⟩
  · rw [setAlerts_ID, setAlerts_Name, setAlerts_Service]
    refine ⟨?_, ?_, ?_⟩ <;>
      simp [preSLO_ID, preSLO_Name, preSLO_Service]

/-! ## Lemmas about the loop over the SLO list -/

theorem mapSLOs_ok_length {plugins : Plugins} {s : Spec} :
    ∀ {l : List SLOSpec} {ms : List SLO},
      mapSLOs plugins s l = .ok ms → ms.length = l.length
  | [], ms, h => by
      unfold mapSLOs at h; injection h with h'; simp [← h']
  | d :: rest, ms, h => by
      unfold mapSLOs at h
      cases h1 : mapSLO plugins s d with
      | error e => rw [h1] at h; cases h
      | ok slo =>
          rw [h1] at h
          cases h2 : mapSLOs plugins s rest with
          | error e => rw [h2] at h; cases h
          | ok slos =>
              rw [h2] at h
              injection h with h'
              rw [← h']
              simp [mapSLOs_ok_length h2]

theorem mapSLOs_ok_get {plugins : Plugins} {s : Spec} :
    ∀ {l : List SLOSpec} {ms : List SLO},
      mapSLOs plugins s l = .ok ms →
      ∀ i (h1 : i < l.length) (h2 : i < ms.length),
        mapSLO plugins s (l.get ⟨i, h1⟩) = .ok (ms.get ⟨i, h2⟩)
  | [], ms, h, i, h1, h2 => by cases h1
  | d :: rest, ms, h, i, h1, h2 => by
      unfold mapSLOs at h
      cases hm : mapSLO plugins s d with
      | error e => rw [hm] at h; cases h
      | ok slo =>
          rw [hm] at h
          cases hr : mapSLOs plugins s rest with
          | error e => rw [hr] at h; cases h
          | ok slos =>
              rw [hr] at h
              injection h with h'
              subst h'
              cases i with
              | zero => exact hm
              | succ j =>
                  exact mapSLOs_ok_get hr j (Nat.lt_of_succ_lt_succ h1)
                    (Nat.lt_of_succ_lt_succ h2)

theorem mapSLOs_ok_mem {plugins : Plugins} {s : Spec} :
    ∀ {l : List SLOSpec} {ms : List SLO},
      mapSLOs plugins s l = .ok ms →
      ∀ m ∈ ms, ∃ d ∈ l, mapSLO plugins s d = .ok m
  | [], ms, h, m, hm => by
      unfold mapSLOs at h; injection h with h'; rw [← h'] at hm; cases hm
  | d :: rest, ms, h, m, hm => by
      unfold mapSLOs at h
      cases h1 : mapSLO plugins s d with
      | error e => rw [h1] at h; cases h
      | ok slo =>
          rw [h1] at h
          cases h2 : mapSLOs plugins s rest with
          | error e => rw [h2] at h; cases h
          | ok slos =>
              rw [h2] at h
              injection h with h'
              subst h'
              cases hm with
              | head => exact ⟨d, List.mem_cons_self d rest, h1⟩
              | tail _ hm' =>
                  obtain ⟨d', hd', hok⟩ := mapSLOs_ok_mem h2 m hm'
                  exact ⟨d', List.mem_cons_of_mem d hd', hok⟩

theorem mapSLOs_ok_of_all {plugins : Plugins} {s : Spec} :
    ∀ {l : List SLOSpec},
      (∀ d ∈ l, ∃ m, mapSLO plugins s d = .ok m) →
      ∃ ms, mapSLOs plugins s l = .ok ms
  | [], _ => ⟨[], rfl⟩
  | d :: rest, h => by
      obtain ⟨m, hm⟩ := h d (List.mem_cons_self d rest)
      obtain ⟨ms, hms⟩ := mapSLOs_ok_of_all fun d' hd' => h d' (List.mem_cons_of_mem d hd')
      exact ⟨m :: ms, by unfold mapSLOs; rw [hm, hms]⟩

/-! ## Lemmas about LoadSpec -/

/-- Inversion of a successful load: the parsed spec passed the version and
non-emptiness gates and the loop succeeded on exactly the produced SLOs. -/
theorem LoadSpec_ok_inv {plugins : Plugins} {input : RawInput} {s : Spec} {g : SLOGroup}
    (hp : input.parse = some s) (h : (LoadSpec plugins input).1 = some g) :
    input.len ≠ 0 ∧ s.Version = specVersion ∧ s.SLOs ≠ [] ∧
      mapSLOs plugins s s.SLOs = .ok g.SLOs := by
  by_cases hlen : input.len = 0
  · simp [LoadSpec, hlen] at h
  · by_cases hv : s.Version = specVersion
    · by_cases hs0 : s.SLOs.length = 0
      · simp [LoadSpec, hlen, hp, hv, hs0] at h
      · cases hm : mapSLOs plugins s s.SLOs with
        | error e => simp [LoadSpec, hlen, hp, hv, hs0, mapSpecToModel, hm] at h
        | ok models =>
            simp [LoadSpec, hlen, hp, hv, hs0, mapSpecToModel, hm] at h
            subst h
            exact ⟨hlen, hv, fun he => hs0 (by simp [he]), rfl⟩
    · simp [LoadSpec, hlen, hp, hv] at h

/-- Construction of a successful load from its ingredients. -/
theorem LoadSpec_ok_of {plugins : Plugins} {input : RawInput} {s : Spec} {ms : List SLO}
    (hlen : input.len ≠ 0) (hp : input.parse = some s)
    (hv : s.Version = specVersion) (hs : s.SLOs ≠ [])
    (hm : mapSLOs plugins s s.SLOs = .ok ms) :
    LoadSpec plugins input = (some { SLOs := ms }, none) := by
  have hs0 : ¬s.SLOs.length = 0 := fun he => hs (List.length_eq_zero.mp he)
  simp [LoadSpec, hlen, hp, hv, hs0, mapSpecToModel, hm]

/-- When the whole alerting block is at its zero value (absent from the
YAML), both disable flags are false, so both branches fire and replace the
defaulted metas with enabled, empty-merged ones. -/
theorem setAlerts_of_empty {d : SLOSpec} (slo : SLO) (ha : d.Alerting = {}) :
    (setAlerts d slo).PageAlertMeta
        = { Disable := false, Name := "", Labels := [], Annotations := [] } ∧
    (setAlerts d slo).TicketAlertMeta
        = { Disable := false, Name := "", Labels := [], Annotations := [] } := by
  unfold setAlerts setPageAlert setTicketAlert
  rw [ha]
  exact ⟨rfl, rfl⟩

/-- mapSLO always succeeds when the declaration has no plugin variant. -/
theorem mapSLO_ok_of_no_plugin {plugins : Plugins} {s : Spec} {d : SLOSpec}
    (h : d.SLI.Plugin = none) : ∃ m, mapSLO plugins s d = .ok m :=
  ⟨_, mapSLO_plugin_none h⟩

/-- The fixed-precision rendering of objective 99, as in the repository
test fixture. -/
theorem formatObjective_99 : formatObjective 99 = "99.000000" := by
  have h : ((99 : ℚ) * 1000000) = 99000000 := by norm_num
  simp only [formatObjective, h]
  rfl

/-! ## Claim theorems -/

/-- C1, counterexample: a concrete SLO whose alerting block is entirely
absent loads successfully with both alert metas NOT disabled (Disable is
false for both page and ticket), refuting the claimed Disable == true. -/
theorem absent_alerting_counterexample :
    ((LoadSpec [] inputNoAlert).1.map fun g => g.SLOs.map fun m =>
        (m.PageAlertMeta.Disable, m.TicketAlertMeta.Disable))
      = some [(false, false)] := by decide

/-- C1, amended: for every SLO declaration whose alerting block is entirely
absent from the input YAML (hence parsed to its zero value), the SLO
produced by LoadSpec has PageAlertMeta and TicketAlertMeta ENABLED
(Disable == false), with empty name and no labels or annotations. -/
theorem absent_alerting_enables_alerts (plugins : Plugins) (input : RawInput)
    (s : Spec) (g : SLOGroup) (i : Nat)
    (hp : input.parse = some s) (h : (LoadSpec plugins input).1 = some g)
    (h1 : i < s.SLOs.length) (h2 : i < g.SLOs.length)
    (ha : (s.SLOs.get ⟨i, h1⟩).Alerting = {}) :
    (g.SLOs.get ⟨i, h2⟩).PageAlertMeta
        = { Disable := false, Name := "", Labels := [], Annotations := [] } ∧
    (g.SLOs.get ⟨i, h2⟩).TicketAlertMeta
        = { Disable := false, Name := "", Labels := [], Annotations := [] } := by
  obtain ⟨_, _, _, hm⟩ := LoadSpec_ok_inv hp h
  have hok := mapSLOs_ok_get hm i h1 h2
  rcases mapSLO_ok_inv hok with ⟨hP, hmm⟩ | ⟨p, pl, q, hP, hL, hF, hmm⟩ <;>
    (rw [hmm]; exact setAlerts_of_empty _ ha)

/-- C1, amended, witness at the concrete absent-alerting fixture. -/
theorem absent_alerting_enables_alerts_witness :
    (groupNoAlert.SLOs.get ⟨0, by decide⟩).PageAlertMeta
        = { Disable := false, Name := "", Labels := [], Annotations := [] } ∧
    (groupNoAlert.SLOs.get ⟨0, by decide⟩).TicketAlertMeta
        = { Disable := false, Name := "", Labels := [], Annotations := [] } :=
  absent_alerting_enables_alerts [] inputNoAlert specNoAlert groupNoAlert 0
    rfl rfl (by decide) (by decide) rfl

/-- C2, counterexample: an SLO declaration with both the events and the raw
variants present loads with BOTH output indicators populated, refuting the
claimed first-match chain in which only the events variant would take
effect and Raw would stay nil. -/
theorem sli_first_match_counterexample :
    ((LoadSpec [] inputBoth).1.map fun g => g.SLOs.map fun m =>
        (m.SLI.Events, m.SLI.Raw))
      = some [(some { ErrorQuery := "e", TotalQuery := "t" },
               some { ErrorRatioQuery := "r" })] := by decide

/-- C2, amended: the three variants are independent checks applied in order
(events, raw, plugin), not a first-match chain: the events variant (when
set) populates Events; with no plugin variant, Raw is exactly the copied
raw variant; with a plugin variant, the plugin is looked up and invoked and
its result populates Raw, overwriting any copied raw query. -/
theorem sli_branches_independent (plugins : Plugins) (s : Spec) (d : SLOSpec)
    (m : SLO) (h : mapSLO plugins s d = .ok m) :
    m.SLI.Events
        = d.SLI.Events.map (fun e => { ErrorQuery := e.ErrorQuery, TotalQuery := e.TotalQuery }) ∧
    (d.SLI.Plugin = none →
      m.SLI.Raw = d.SLI.Raw.map fun r => { ErrorRatioQuery := r.ErrorRatioQuery }) ∧
    (∀ p, d.SLI.Plugin = some p →
      ∃ pl q, plugins.lookup p.ID = some pl ∧
        pl.Func (pluginMeta s d) s.Labels p.Options = .ok q ∧
        m.SLI.Raw = some { ErrorRatioQuery := q }) := by
  rcases mapSLO_ok_inv h with ⟨hP, rfl⟩ | ⟨p, pl, q, hP, hL, hF, rfl⟩
  · refine ⟨?_, fun _ => ?_, fun p hp => absurd hp (by simp [hP])⟩
    · rw [setAlerts_SLI, preSLO_Events]
    · rw [setAlerts_SLI, preSLO_Raw]
  · refine ⟨?_, fun h0 => absurd hP (by simp [h0]), fun p' hp' => ?_⟩
    · rw [setAlerts_SLI]
      show (preSLO s d).SLI.Events = _
      rw [preSLO_Events]
    · rw [hP] at hp'
      injection hp' with hpp
      subst hpp
      exact ⟨pl, q, hL, hF, by rw [setAlerts_SLI]⟩

/-- C2, amended, witness at the concrete both-variants fixture. -/
theorem sli_branches_independent_witness :
    sloBoth.SLI.Events
        = declBoth.SLI.Events.map (fun e => { ErrorQuery := e.ErrorQuery, TotalQuery := e.TotalQuery }) ∧
    sloBoth.SLI.Raw
        = declBoth.SLI.Raw.map (fun r => { ErrorRatioQuery := r.ErrorRatioQuery }) :=
  ⟨(sli_branches_independent [] specBoth declBoth sloBoth rfl).1,
   (sli_branches_independent [] specBoth declBoth sloBoth rfl).2.1 rfl⟩

/-- C3: for every input accepted by LoadSpec in which each SLO declaration
specifies exactly one signal-source variant, every resolved SLI in the
output has exactly one of Events and Raw non-nil. -/
theorem sli_exclusivity (plugins : Plugins) (input : RawInput)
    (s : Spec) (g : SLOGroup)
    (hp : input.parse = some s) (h : (LoadSpec plugins input).1 = some g)
    (hone : ∀ d ∈ s.SLOs, oneVariant d.SLI = true) :
    ∀ m ∈ g.SLOs,
      (m.SLI.Events.isSome = true ∧ m.SLI.Raw = none) ∨
      (m.SLI.Events = none ∧ m.SLI.Raw.isSome = true) := by
  obtain ⟨_, _, _, hm⟩ := LoadSpec_ok_inv hp h
  intro m hmem
  obtain ⟨d, hd, hok⟩ := mapSLOs_ok_mem hm m hmem
  have hone' := hone d hd
  rcases mapSLO_ok_inv hok with ⟨hP, rfl⟩ | ⟨p, pl, q, hP, hL, hF, rfl⟩
  · rw [setAlerts_SLI]
    cases hE : d.SLI.Events <;> cases hR : d.SLI.Raw <;>
      simp [oneVariant, hP, hE, hR] at hone' ⊢ <;>
      simp [preSLO_Events, preSLO_Raw, hE, hR]
  · rw [setAlerts_SLI]
    cases hE : d.SLI.Events <;> cases hR : d.SLI.Raw <;>
      simp [oneVariant, hP, hE, hR] at hone' ⊢ <;>
      simp [preSLO_Events, hE]

/-- C3, witness at the concrete raw-variant fixture. -/
theorem sli_exclusivity_witness :
    (sloA.SLI.Events.isSome = true ∧ sloA.SLI.Raw = none) ∨
    (sloA.SLI.Events = none ∧ sloA.SLI.Raw.isSome = true) :=
  sli_exclusivity [] inputA specA groupA rfl rfl (by decide) sloA (by simp [groupA])

/-- C4: for every SLO declaration using the plugin variant with a registered
plugin, the plugin is invoked with the metadata mapping holding exactly the
service name, the SLO name and the objective formatted with six digits
after the decimal point (99 renders as 99.000000), together with the
top-level group labels and the declared options; on success the returned
string becomes SLI.Raw.ErrorRatioQuery. -/
theorem plugin_invocation (plugins : Plugins) (s : Spec) (d : SLOSpec)
    (p : SLIPluginSpec) (pl : SLIPlugin) (q : String)
    (hP : d.SLI.Plugin = some p) (hL : plugins.lookup p.ID = some pl)
    (hF : pl.Func
        [("service", s.Service), ("slo", d.Name), ("objective", formatObjective d.Objective)]
        s.Labels p.Options = .ok q) :
    (∃ m, mapSLO plugins s d = .ok m ∧ m.SLI.Raw = some { ErrorRatioQuery := q }) ∧
    formatObjective 99 = "99.000000" := by
  refine ⟨⟨_, mapSLO_plugin_ok hP hL hF, by rw [setAlerts_SLI]⟩, formatObjective_99⟩

/-- C4, witness: the repository plugin round-trip fixture, objective 99
formatted as 99.000000, group label gv1 and options v1/true composed. -/
theorem plugin_invocation_witness :
    (∃ m, mapSLO [("test_plugin", tPlugin)] specP declP = .ok m ∧
       m.SLI.Raw = some { ErrorRatioQuery := "expr-test-svc-slo-test-99.000000-gv1-v1-true" }) ∧
    formatObjective 99 = "99.000000" :=
  plugin_invocation [("test_plugin", tPlugin)] specP declP
    { ID := "test_plugin", Options := [("k1", "v1"), ("k2", "true")] } tPlugin
    "expr-test-svc-slo-test-99.000000-gv1-v1-true" rfl rfl
    (by rw [show formatObjective declP.Objective = "99.000000" from formatObjective_99]; rfl)

/-- C5: the four validation gates of LoadSpec, in order, each
short-circuiting: zero-length input fails with EmptySpec; non-empty input
that does not deserialize (such as the literal colon input) fails with
MalformedSpec; a version different from the single supported literal fails
with UnsupportedVersion; an empty SLO list fails with NoSLOs. -/
theorem loadSpec_validation_gates (plugins : Plugins) (input : RawInput) :
    (input.len = 0 → LoadSpec plugins input = (none, some .EmptySpec)) ∧
    (input.len ≠ 0 → input.parse = none →
      LoadSpec plugins input = (none, some .MalformedSpec)) ∧
    (∀ s, input.len ≠ 0 → input.parse = some s → s.Version ≠ specVersion →
      LoadSpec plugins input = (none, some .UnsupportedVersion)) ∧
    (∀ s, input.len ≠ 0 → input.parse = some s → s.Version = specVersion →
      s.SLOs = [] → LoadSpec plugins input = (none, some .NoSLOs)) := by
  refine ⟨fun h => ?_, fun h1 h2 => ?_, fun s h1 h2 h3 => ?_, fun s h1 h2 h3 h4 => ?_⟩
  · simp [LoadSpec, h]
  · simp [LoadSpec, h1, h2]
  · simp [LoadSpec, h1, h2, h3]
  · simp [LoadSpec, h1, h2, h3, h4]

/-- C5, witness: each gate observed at a concrete input. -/
theorem loadSpec_validation_gates_witness :
    LoadSpec [] emptyInput = (none, some .EmptySpec) ∧
    LoadSpec [] colonInput = (none, some .MalformedSpec) ∧
    LoadSpec [] inputBadVersion = (none, some .UnsupportedVersion) ∧
    LoadSpec [] inputNoSLOs = (none, some .NoSLOs) :=
  ⟨(loadSpec_validation_gates [] emptyInput).1 rfl,
   (loadSpec_validation_gates [] colonInput).2.1 (by decide) rfl,
   (loadSpec_validation_gates [] inputBadVersion).2.2.1 specBadVersion
     (by decide) rfl (by decide),
   (loadSpec_validation_gates [] inputNoSLOs).2.2.2 specNoSLOs
     (by decide) rfl rfl rfl⟩

/-- C6: LoadSpec is all-or-nothing: whenever the error component is present
no group is returned alongside it; moreover an unregistered plugin
identifier produces exactly UnknownPlugin and a failing plugin invocation
produces exactly PluginExecutionError wrapping the cause. -/
theorem loadSpec_all_or_nothing (plugins : Plugins) (input : RawInput) :
    (((LoadSpec plugins input).2).isSome → (LoadSpec plugins input).1 = none) ∧
    (∀ s d p, d.SLI.Plugin = some p → plugins.lookup p.ID = none →
      mapSLO plugins s d = .error (.UnknownPlugin p.ID)) ∧
    (∀ s d p pl e, d.SLI.Plugin = some p → plugins.lookup p.ID = some pl →
      pl.Func (pluginMeta s d) s.Labels p.Options = .error e →
      mapSLO plugins s d = .error (.PluginExecutionError p.ID e)) := by
  refine ⟨fun h2 => ?_, fun s d p hP hL => mapSLO_plugin_unknown hP hL,
    fun s d p pl e hP hL hF => mapSLO_plugin_error hP hL hF⟩
  by_cases hlen : input.len = 0
  · simp [LoadSpec, hlen]
  · cases hp : input.parse with
    | none => simp [LoadSpec, hlen, hp]
    | some s =>
        by_cases hv : s.Version = specVersion
        · by_cases hs0 : s.SLOs.length = 0
          · simp [LoadSpec, hlen, hp, hv, hs0]
          · cases hm : mapSLOs plugins s s.SLOs with
            | error e => simp [LoadSpec, hlen, hp, hv, hs0, mapSpecToModel, hm]
            | ok models =>
                simp [LoadSpec, hlen, hp, hv, hs0, mapSpecToModel, hm] at h2
        · simp [LoadSpec, hlen, hp, hv]

/-- C6, witness: the concrete unregistered-plugin input errors and carries
no group. -/
theorem loadSpec_all_or_nothing_witness :
    (LoadSpec [] inputUnknown).1 = none :=
  (loadSpec_all_or_nothing [] inputUnknown).1 (by decide)

/-- C7: for every SLO produced by a successful LoadSpec, its ID equals the
service name concatenated with a literal hyphen and the SLO name. -/
theorem slo_id_service_hyphen_name (plugins : Plugins) (input : RawInput)
    (s : Spec) (g : SLOGroup)
    (hp : input.parse = some s) (h : (LoadSpec plugins input).1 = some g) :
    ∀ m ∈ g.SLOs, m.ID = s.Service ++ "-" ++ m.Name ∧ m.Service = s.Service := by
  obtain ⟨_, _, _, hm⟩ := LoadSpec_ok_inv hp h
  intro m hmem
  obtain ⟨d, _, hok⟩ := mapSLOs_ok_mem hm m hmem
  obtain ⟨hid, hname, hsvc⟩ := mapSLO_ok_fields hok
  exact ⟨by rw [hid, hname], hsvc⟩

/-- C7, witness at the concrete raw-variant fixture. -/
theorem slo_id_service_hyphen_name_witness :
    sloA.ID = specA.Service ++ "-" ++ sloA.Name ∧ sloA.Service = specA.Service :=
  slo_id_service_hyphen_name [] inputA specA groupA rfl rfl sloA (by simp [groupA])

/-- C8: for every input accepted by LoadSpec, the produced group has exactly
one SLO per input declaration, its length equals the input count, and the
declaration at every position maps to the output at the same position. -/
theorem loadSpec_count_and_order (plugins : Plugins) (input : RawInput)
    (s : Spec) (g : SLOGroup)
    (hp : input.parse = some s) (h : (LoadSpec plugins input).1 = some g) :
    g.SLOs.length = s.SLOs.length ∧
    ∀ i (h1 : i < s.SLOs.length) (h2 : i < g.SLOs.length),
      mapSLO plugins s (s.SLOs.get ⟨i, h1⟩) = .ok (g.SLOs.get ⟨i, h2⟩) := by
  obtain ⟨_, _, _, hm⟩ := LoadSpec_ok_inv hp h
  exact ⟨mapSLOs_ok_length hm, fun i h1 h2 => mapSLOs_ok_get hm i h1 h2⟩

/-- C8, witness at the concrete raw-variant fixture. -/
theorem loadSpec_count_and_order_witness :
    groupA.SLOs.length = specA.SLOs.length ∧
    mapSLO [] specA (specA.SLOs.get ⟨0, by decide⟩)
      = .ok (groupA.SLOs.get ⟨0, by decide⟩) :=
  ⟨(loadSpec_count_and_order [] inputA specA groupA rfl rfl).1,
   (loadSpec_count_and_order [] inputA specA groupA rfl rfl).2 0 (by decide) (by decide)⟩

/-- C9: an SLO declaration with none of the three signal-source variants
set raises no validation error: an otherwise valid input whose declarations
all have empty SLI unions loads successfully and each produced SLO has both
Events and Raw unset. -/
theorem empty_sli_is_permitted (plugins : Plugins) (input : RawInput) (s : Spec)
    (hlen : input.len ≠ 0) (hp : input.parse = some s)
    (hv : s.Version = specVersion) (hs : s.SLOs ≠ [])
    (hall : ∀ d ∈ s.SLOs, d.SLI = {}) :
    ∃ g, LoadSpec plugins input = (some g, none) ∧
      ∀ m ∈ g.SLOs, m.SLI.Events = none ∧ m.SLI.Raw = none := by
  obtain ⟨ms, hms⟩ := mapSLOs_ok_of_all fun d hd =>
    mapSLO_ok_of_no_plugin (by rw [hall d hd])
  refine ⟨{ SLOs := ms }, LoadSpec_ok_of hlen hp hv hs hms, ?_⟩
  intro m hmem
  obtain ⟨d, hd, hokd⟩ := mapSLOs_ok_mem hms m hmem
  rcases mapSLO_ok_inv hokd with ⟨hP, rfl⟩ | ⟨p, pl, q, hP, _, _, rfl⟩
  · rw [setAlerts_SLI]
    constructor
    · rw [preSLO_Events, hall d hd]; rfl
    · rw [preSLO_Raw, hall d hd]; rfl
  · rw [hall d hd] at hP; cases hP

/-- C9, witness at the concrete empty-SLI fixture. -/
theorem empty_sli_is_permitted_witness :
    ∃ g, LoadSpec [] inputEmptySLI = (some g, none) ∧
      ∀ m ∈ g.SLOs, m.SLI.Events = none ∧ m.SLI.Raw = none :=
  empty_sli_is_permitted [] inputEmptySLI specEmptySLI (by decide) rfl rfl
    (by decide) (by decide)

/-- C10: LoadSpec performs no validation of the service field: an otherwise
valid input with an empty service is accepted, and every produced SLO has
an empty Service and an ID equal to a hyphen followed by the SLO name. -/
theorem empty_service_accepted (plugins : Plugins) (input : RawInput) (s : Spec)
    (hlen : input.len ≠ 0) (hp : input.parse = some s)
    (hv : s.Version = specVersion) (hs : s.SLOs ≠ [])
    (hsvc : s.Service = "") (hnp : ∀ d ∈ s.SLOs, d.SLI.Plugin = none) :
    ∃ g, LoadSpec plugins input = (some g, none) ∧
      ∀ m ∈ g.SLOs, m.Service = "" ∧ m.ID = "-" ++ m.Name := by
  obtain ⟨ms, hms⟩ := mapSLOs_ok_of_all fun d hd => mapSLO_ok_of_no_plugin (hnp d hd)
  refine ⟨{ SLOs := ms }, LoadSpec_ok_of hlen hp hv hs hms, ?_⟩
  intro m hmem
  obtain ⟨d, hd, hokd⟩ := mapSLOs_ok_mem hms m hmem
  obtain ⟨hid, hname, hsvc'⟩ := mapSLO_ok_fields hokd
  refine ⟨by rw [hsvc', hsvc], ?_⟩
  rw [hid, hsvc, hname]
  rfl

/-- C10, witness at the concrete empty-service fixture. -/
theorem empty_service_accepted_witness :
    ∃ g, LoadSpec [] inputNoService = (some g, none) ∧
      ∀ m ∈ g.SLOs, m.Service = "" ∧ m.ID = "-" ++ m.Name :=
  empty_service_accepted [] inputNoService specNoService (by decide) rfl rfl
    (by decide) rfl (by decide)

end Sloth
